import Mathlib

/-!
Shallow embedding of `src/scripts/summarize_zonal_intersections.py`
(class `SummarizeIntersection`, a QGIS processing algorithm).

Python floats are modelled as exact rationals (`ℚ`), Python ints as `Int`.
QGIS geometry objects are abstracted to the data the script reads from
them: area, length, GEOS validity, emptiness, and the geometry type of
their WKB type (`QgsWkbTypes.geometryType`).  The geometry engine
operations `intersects` / `intersection` are oracle parameters of a run.
-/

namespace SummarizeZonal

/-- Geometry types as returned by `QgsWkbTypes.geometryType`; the numeric
codes (used by the `class_type > zone_type` comparison in
`validateGeometries`) are Point = 0, Line = 1, Polygon = 2, Unknown = 3,
Null = 4. -/
inductive GeometryType where
  | PointGeometry
  | LineGeometry
  | PolygonGeometry
  | UnknownGeometry
  | NullGeometry
deriving DecidableEq, Repr

/-- Numeric code of a geometry type in the Qt enum order. -/
def GeometryType.code : GeometryType → Nat
  | .PointGeometry => 0
  | .LineGeometry => 1
  | .PolygonGeometry => 2
  | .UnknownGeometry => 3
  | .NullGeometry => 4

/-- A Python attribute value as read off a `QgsFeature`: NULL/None, a
number, or a string.  For a string we record, next to its text, the
result `float(s)` would give: `some q` when the text parses as a number
and `Option.none` when `float` would raise `ValueError`. -/
inductive PyValue where
  | none
  | num (q : ℚ)
  | str (s : String) (floatVal : Option ℚ)
deriving DecidableEq, Repr

/-- Python truthiness of an attribute value (`if class_feature[field]`):
None is falsy, a number is truthy iff nonzero, a string iff nonempty. -/
def PyValue.truthy : PyValue → Bool
  | .none => false
  | .num q => q != 0
  | .str s _ => s != ""

/-- Python exceptions the embedded code can raise. -/
inductive PyError where
  | valueError (msg : String)
  | attributeError (msg : String)
  | nameError (msg : String)
deriving DecidableEq, Repr

/-- Python `float(v)` on an attribute value. -/
def pyFloat : PyValue → Except PyError ℚ
  | .none => .error (.valueError "float of None")
  | .num q => .ok q
  | .str _ (some q) => .ok q
  | .str s Option.none => .error (.valueError ("could not convert string to float: " ++ s))

/-- Python `int(q)` on a float modelled as a rational: truncation toward
zero (`Int.tdiv` is T-division). -/
def pyInt (q : ℚ) : Int := q.num.tdiv (q.den : Int)

/-- The slice of a QGIS geometry object that the script reads. -/
structure Geometry where
  area : ℚ
  length : ℚ
  isGeosValid : Bool
  isEmpty : Bool
  wkbType : GeometryType
deriving DecidableEq, Repr

/-- The slice of a `QgsFeature` the script reads: an id, a geometry, and
the attribute map (field name to value, in schema order). -/
structure Feature where
  id : Int
  geom : Geometry
  attrs : List (String × PyValue)
deriving DecidableEq, Repr

/-- Attribute lookup `feature[field]` (the features carry their full
schema, so lookups performed by the script find the field). -/
def lookupAttr (f : Feature) (name : String) : Option PyValue :=
  (f.attrs.find? (fun p => p.1 == name)).map (fun p => p.2)

/-- Membership test `field in class_feature.fields()`. -/
def hasField (f : Feature) (name : String) : Bool :=
  (f.attrs.find? (fun p => p.1 == name)).isSome

/-- The `class_measures` accumulator dict created per
(zone feature, class group) pair (lines 146-151). -/
structure Measures where
  AREA : ℚ
  LENGTH : ℚ
  PNT_COUNT : Int
  SUM_FIELDS : List (String × ℚ)
deriving DecidableEq, Repr

/-- Initial accumulator: zero in every slot, one zero entry per sum
field (`{field: 0.0 for field in sum_fields}`). -/
def initMeasures (sum_fields : List String) : Measures :=
  { AREA := 0, LENGTH := 0, PNT_COUNT := 0,
    SUM_FIELDS := sum_fields.map (fun f => (f, 0)) }

/-- In-place `current_measures[SUM_FIELDS][field] += v` on the assoc
list: the first entry with the given key is incremented. -/
def addToSumField : List (String × ℚ) → String → ℚ → List (String × ℚ)
  | [], _, _ => []
  | (k, x) :: rest, field, v =>
      if k == field then (k, x + v) :: rest
      else (k, x) :: addToSumField rest field v

/-- `calculateTotalMeasure` (lines 195-205): area for polygons, length
for lines, the constant 1 for points, 0 otherwise.  The Python method
receives a WKB type and applies `QgsWkbTypes.geometryType`; here the
argument is already the geometry type. -/
def calculateTotalMeasure (geometry : Geometry) (geometry_type : GeometryType) : ℚ :=
  if geometry_type = .PolygonGeometry then geometry.area
  else if geometry_type = .LineGeometry then geometry.length
  else if geometry_type = .PointGeometry then 1
  else 0

/-- `validateGeometries` (lines 207-220), on the geometry types of the
two sources.  Three sequential checks, each raising
`QgsProcessingException`; the third compares the enum codes. -/
def validateGeometries (zone_type class_type : GeometryType) : Except String Unit :=
  if zone_type = .PointGeometry ∧
      (class_type = .PolygonGeometry ∨ class_type = .LineGeometry) then
    .error "Class features cannot be polygons or lines when zone features are points"
  else if zone_type = .LineGeometry ∧ class_type = .PolygonGeometry then
    .error "Class features cannot be polygons when zone features are lines"
  else if class_type.code > zone_type.code then
    .error "Higher dimension class features are not supported for this zone type"
  else
    .ok ()

/-- `calculateMeasure` (lines 268-278): the measure an intersection
geometry contributes, keyed on the two source geometry types. -/
def calculateMeasure (geometry : Geometry) (zone_type class_type : GeometryType) : ℚ :=
  if zone_type = .PolygonGeometry ∧ class_type = .PolygonGeometry then geometry.area
  else if class_type = .LineGeometry then geometry.length
  else if class_type = .PointGeometry then 1
  else 0

/-- `calculatePercentage` (lines 280-299), on the two source geometry
types. -/
def calculatePercentage (class_measures : Measures) (total_zone_measure : ℚ)
    (zone_type class_type : GeometryType) : ℚ :=
  let denominator :=
    if zone_type = class_type then total_zone_measure
    else if class_type = .PolygonGeometry then class_measures.AREA
    else class_measures.LENGTH
  if denominator = 0 then 0
  else
    let value :=
      if zone_type = .PolygonGeometry then class_measures.AREA
      else if zone_type = .LineGeometry then class_measures.LENGTH
      else (class_measures.PNT_COUNT : ℚ)
    (value / denominator) * 100

/-- One iteration of the sum-field loop in `updateMeasures`
(lines 242-259): skip fields absent from the feature schema, coerce the
value with `float` when it is truthy (else use 0.0), divide the
intersection measure by the total measure of the class feature itself
(0 when that total is 0), and add the proportional value. -/
def updateSumField (m : Measures) (measure : ℚ) (class_feature : Feature)
    (field : String) : Except PyError Measures :=
  if hasField class_feature field = false then .ok m
  else
    let v := (lookupAttr class_feature field).getD .none
    match (if v.truthy then pyFloat v else .ok 0) with
    | .error e => .error e
    | .ok feature_value =>
        let total_class_measure :=
          calculateTotalMeasure class_feature.geom class_feature.geom.wkbType
        let proportion := if total_class_measure ≠ 0 then measure / total_class_measure else 0
        .ok { m with SUM_FIELDS := addToSumField m.SUM_FIELDS field (feature_value * proportion) }

/-- The `for field in sum_fields` loop of `updateMeasures`; an exception
in one iteration propagates out of the loop. -/
def processSumFields (measure : ℚ) (class_feature : Feature) :
    Measures → List String → Except PyError Measures
  | m, [] => .ok m
  | m, field :: rest =>
      match updateSumField m measure class_feature field with
      | .error e => .error e
      | .ok m2 => processSumFields measure class_feature m2 rest

/-- The `try` body of `updateMeasures` (lines 224-261): skip features
whose geometry is not GEOS-valid, add the measure to the slot selected
by the class feature's own geometry type (with Python truthiness guards
`measure if measure else 0.0` and `int(measure) if measure else 0`),
then run the sum-field loop. -/
def updateMeasuresBody (current_measures : Measures) (measure : ℚ)
    (class_feature : Feature) (sum_fields : List String) : Except PyError Measures :=
  if class_feature.geom.isGeosValid = false then .ok current_measures
  else
    let class_type := class_feature.geom.wkbType
    let m1 :=
      if class_type = .PolygonGeometry then
        { current_measures with
          AREA := current_measures.AREA + (if measure ≠ 0 then measure else 0) }
      else if class_type = .LineGeometry then
        { current_measures with
          LENGTH := current_measures.LENGTH + (if measure ≠ 0 then measure else 0) }
      else if class_type = .PointGeometry then
        { current_measures with
          PNT_COUNT := current_measures.PNT_COUNT + (if measure ≠ 0 then pyInt measure else 0) }
      else current_measures
    processSumFields measure class_feature m1 sum_fields

/-- `updateMeasures` (lines 222-265).  The `except` handler executes
`self.feedback.reportError(...)`, but the class never assigns
`self.feedback` anywhere (`processAlgorithm` receives `feedback` only as
a parameter and does not store it on `self`, and `QgsProcessingAlgorithm`
defines no such attribute), so the attribute access itself raises
`AttributeError`, which replaces the caught exception and propagates to
the caller. -/
def updateMeasures (current_measures : Measures) (measure : ℚ)
    (class_feature : Feature) (sum_fields : List String) : Except PyError Measures :=
  match updateMeasuresBody current_measures measure class_feature sum_fields with
  | .ok m => .ok m
  | .error _ => .error (.attributeError "SummarizeIntersection object has no attribute feedback")

/-- Keys of the grouping dictionary built by `groupFeatures`: either the
string key ALL (no grouping fields) or a tuple of attribute values. -/
inductive GroupKey where
  | all
  | vals (vs : List PyValue)
deriving DecidableEq, Repr

/-- Insert a feature under a key, preserving the first-seen order of
keys (Python dict insertion order) and appending within a group. -/
def addToGroup : List (GroupKey × List Feature) → GroupKey → Feature →
    List (GroupKey × List Feature)
  | [], key, f => [(key, [f])]
  | (k, fs) :: rest, key, f =>
      if k = key then (k, fs ++ [f]) :: rest
      else (k, fs) :: addToGroup rest key f

/-- The slice of a QGIS feature source the script reads: its features
(in iteration order), the geometry type of its WKB type, and its field
schema (names in order). -/
structure Source where
  features : List Feature
  geomType : GeometryType
  fields : List String
deriving Repr

/-- `groupFeatures` (lines 301-308): key each feature by the tuple of
its grouping-field values (or ALL when no fields are given) and bucket
in first-seen order. -/
def groupFeatures (source : Source) (fields : List String) :
    List (GroupKey × List Feature) :=
  source.features.foldl
    (fun groups feature =>
      let key :=
        if fields.isEmpty then GroupKey.all
        else GroupKey.vals (fields.map (fun field => (lookupAttr feature field).getD .none))
      addToGroup groups key feature)
    []

/-- The geometry-engine operations the script calls on geometries,
supplied as an oracle of a run. -/
structure GeomEngine where
  intersects : Geometry → Geometry → Bool
  intersection : Geometry → Geometry → Geometry

/-- Observable events of a run, in the order they happen: creation of
the output sink with its field schema, one `addFeature` per emitted
output record (with its attribute list), progress reports, and error
reports on the feedback channel. -/
inductive Event where
  | sinkCreated (schema : List String)
  | addFeature (attrs : List PyValue)
  | setProgress (p : Int)
  | reportError (msg : String)
deriving DecidableEq, Repr

/-- How a run can abort: a `QgsProcessingException` raised by the
script, or an uncaught Python exception. -/
inductive RunError where
  | processingException (msg : String)
  | pyError (e : PyError)
deriving DecidableEq, Repr

/-- Result of a run: the events that happened, and `Option.none` for
normal completion or the error that aborted it. -/
structure RunResult where
  events : List Event
  error : Option RunError
deriving DecidableEq, Repr

/-- The run parameters read at the top of `processAlgorithm`
(lines 88-92). -/
structure RunParams where
  zones_source : Source
  zone_fields : List String
  classes_source : Source
  class_fields : List String
  sum_fields : List String

/-- Output field schema built in lines 100-123: the zone-source fields
whose names were selected, then the selected class-source fields, then
AREA when zone and class are both polygons, LENGTH for line classes,
PNT_COUNT for point classes, then always PERCENTAGE.  The sum fields do
not appear. -/
def buildOutputFields (zoneSchema : List String) (zone_fields : List String)
    (classSchema : List String) (class_fields : List String)
    (zone_type class_type : GeometryType) : List String :=
  (zoneSchema.filter (fun n => zone_fields.contains n))
  ++ (classSchema.filter (fun n => class_fields.contains n))
  ++ (if zone_type = .PolygonGeometry ∧ class_type = .PolygonGeometry then ["AREA"] else [])
  ++ (if class_type = .LineGeometry then ["LENGTH"] else [])
  ++ (if class_type = .PointGeometry then ["PNT_COUNT"] else [])
  ++ ["PERCENTAGE"]

/-- One iteration of the inner `for class_feature in class_features`
loop (lines 153-159): when the class geometry intersects the zone
geometry and the intersection is nonempty, compute the intersection
measure and fold it in with `updateMeasures`; otherwise leave the
accumulator unchanged. -/
def classFeatureStep (eng : GeomEngine) (zone_type class_type : GeometryType)
    (sum_fields : List String) (zone_geom : Geometry) (m : Measures)
    (class_feature : Feature) : Except PyError Measures :=
  let class_geom := class_feature.geom
  if eng.intersects zone_geom class_geom then
    let intersection := eng.intersection zone_geom class_geom
    if intersection.isEmpty = false then
      updateMeasures m (calculateMeasure intersection zone_type class_type)
        class_feature sum_fields
    else .ok m
  else .ok m

/-- The inner `for class_feature in class_features` loop (lines
153-159), folding `classFeatureStep` over the class features of a
group. -/
def accumulateClassFeatures (eng : GeomEngine) (zone_type class_type : GeometryType)
    (sum_fields : List String) (zone_geom : Geometry) :
    Measures → List Feature → Except PyError Measures
  | m, [] => .ok m
  | m, class_feature :: rest =>
      match classFeatureStep eng zone_type class_type sum_fields zone_geom m class_feature with
      | .error e => .error e
      | .ok m2 => accumulateClassFeatures eng zone_type class_type sum_fields zone_geom m2 rest

/-- The attribute values appended for the selected zone fields
(lines 170-171). -/
def buildZoneAttrs (zone_fields : List String) (zone_feature : Feature) : List PyValue :=
  zone_fields.map (fun field => (lookupAttr zone_feature field).getD .none)

/-- The attribute values appended for the selected class fields
(lines 173-174).  The Python loop reads the variable `class_feature`,
which at that point holds the last feature the inner loop bound; when no
class feature was ever bound and the selection is nonempty, the read
raises `NameError` (this branch is unreachable in a run, since an empty
group leaves every metric zero and the record is skipped). -/
def buildClassAttrs (class_fields : List String) (lastCF : Option Feature) :
    Except RunError (List PyValue) :=
  match class_fields, lastCF with
  | [], _ => .ok []
  | _ :: _, some cf =>
      .ok (class_fields.map (fun field => (lookupAttr cf field).getD .none))
  | _ :: _, Option.none => .error (.pyError (.nameError "class_feature"))

/-- The conditional metric columns plus PERCENTAGE (lines 176-184). -/
def metricsList (zone_type class_type : GeometryType) (m : Measures)
    (percentage : ℚ) : List PyValue :=
  (if zone_type = .PolygonGeometry ∧ class_type = .PolygonGeometry
    then [PyValue.num m.AREA] else [])
  ++ (if class_type = .LineGeometry then [PyValue.num m.LENGTH] else [])
  ++ (if class_type = .PointGeometry then [PyValue.num (m.PNT_COUNT : ℚ)] else [])
  ++ [PyValue.num percentage]

/-- The body of the `for class_key, class_features in classes.items()`
loop for one class group (lines 145-188): build a fresh accumulator,
scan the class features, compute the percentage, skip the record when
AREA, LENGTH, PNT_COUNT and the percentage are all falsy, otherwise
emit one `addFeature` with zone attributes, class attributes (from the
last bound class feature), metrics and percentage.  Returns the events
of this pair and the `class_feature` binding after the loop. -/
def processPair (eng : GeomEngine) (zone_type class_type : GeometryType)
    (zone_fields class_fields sum_fields : List String)
    (zone_geom : Geometry) (total_zone_measure : ℚ) (zone_feature : Feature)
    (lastCF : Option Feature) (class_features : List Feature) :
    Except RunError (List Event × Option Feature) :=
  match accumulateClassFeatures eng zone_type class_type sum_fields zone_geom
      (initMeasures sum_fields) class_features with
  | .error e => .error (.pyError e)
  | .ok class_measures =>
      let lastCF2 := if class_features.isEmpty then lastCF else class_features.getLast?
      let percentage := calculatePercentage class_measures total_zone_measure zone_type class_type
      if class_measures.AREA ≠ 0 ∨ class_measures.LENGTH ≠ 0 ∨
          class_measures.PNT_COUNT ≠ 0 ∨ percentage ≠ 0 then
        match buildClassAttrs class_fields lastCF2 with
        | .error e => .error e
        | .ok classAttrs =>
            .ok ([Event.addFeature
                    (buildZoneAttrs zone_fields zone_feature ++ classAttrs
                      ++ metricsList zone_type class_type class_measures percentage)],
                 lastCF2)
      else .ok ([], lastCF2)

/-- Iterate `processPair` over the class groups, threading the
`class_feature` binding and concatenating events; an error keeps the
events already produced before it. -/
def runClassGroups (eng : GeomEngine) (zone_type class_type : GeometryType)
    (zone_fields class_fields sum_fields : List String)
    (zone_geom : Geometry) (total_zone_measure : ℚ) (zone_feature : Feature) :
    Option Feature → List (GroupKey × List Feature) →
    List Event × Except RunError (Option Feature)
  | lastCF, [] => ([], .ok lastCF)
  | lastCF, (_, class_features) :: rest =>
      match processPair eng zone_type class_type zone_fields class_fields sum_fields
          zone_geom total_zone_measure zone_feature lastCF class_features with
      | .error e => ([], .error e)
      | .ok (evs, lastCF2) =>
          let (evs2, r) := runClassGroups eng zone_type class_type zone_fields
            class_fields sum_fields zone_geom total_zone_measure zone_feature lastCF2 rest
          (evs ++ evs2, r)

/-- Iterate over the zone features of one zone group (lines 141-191):
per feature compute the zone total measure from the zone source type,
run all class groups, then increment the counter and report
`int((current / total) * 100)`. -/
def runZoneFeatures (eng : GeomEngine) (zone_type class_type : GeometryType)
    (zone_fields class_fields sum_fields : List String)
    (classes : List (GroupKey × List Feature)) (total : Int) :
    Int → Option Feature → List Feature →
    List Event × Except RunError (Int × Option Feature)
  | current, lastCF, [] => ([], .ok (current, lastCF))
  | current, lastCF, zone_feature :: rest =>
      let zone_geom := zone_feature.geom
      let total_zone_measure := calculateTotalMeasure zone_geom zone_type
      match runClassGroups eng zone_type class_type zone_fields class_fields sum_fields
          zone_geom total_zone_measure zone_feature lastCF classes with
      | (evs, .error e) => (evs, .error e)
      | (evs, .ok lastCF2) =>
          let current2 := current + 1
          let progressEvent := Event.setProgress (pyInt (((current2 : ℚ) / (total : ℚ)) * 100))
          let (evs2, r) := runZoneFeatures eng zone_type class_type zone_fields
            class_fields sum_fields classes total current2 lastCF2 rest
          (evs ++ [progressEvent] ++ evs2, r)

/-- Iterate over the zone groups (line 140). -/
def runZoneGroups (eng : GeomEngine) (zone_type class_type : GeometryType)
    (zone_fields class_fields sum_fields : List String)
    (classes : List (GroupKey × List Feature)) (total : Int) :
    Int → Option Feature → List (GroupKey × List Feature) →
    List Event × Except RunError (Int × Option Feature)
  | current, lastCF, [] => ([], .ok (current, lastCF))
  | current, lastCF, (_, zone_features) :: rest =>
      match runZoneFeatures eng zone_type class_type zone_fields class_fields
          sum_fields classes total current lastCF zone_features with
      | (evs, .error e) => (evs, .error e)
      | (evs, .ok (current2, lastCF2)) =>
          let (evs2, r) := runZoneGroups eng zone_type class_type zone_fields
            class_fields sum_fields classes total current2 lastCF2 rest
          (evs ++ evs2, r)

/-- `processAlgorithm` (lines 87-193): validate the geometry types
(aborting before anything else happens), build the output schema and
create the sink, group both sources (the class source collapses to one
ALL group when no class fields are selected), compute
`total = len(zones) * len(classes)` when both dicts are nonempty (else
1), and run the nested loops. -/
def processAlgorithm (p : RunParams) (eng : GeomEngine) : RunResult :=
  let zone_type := p.zones_source.geomType
  let class_type := p.classes_source.geomType
  match validateGeometries zone_type class_type with
  | .error msg => { events := [], error := some (.processingException msg) }
  | .ok _ =>
      let output_fields := buildOutputFields p.zones_source.fields p.zone_fields
        p.classes_source.fields p.class_fields zone_type class_type
      let zones := groupFeatures p.zones_source p.zone_fields
      let classes :=
        if p.class_fields.isEmpty = false then groupFeatures p.classes_source p.class_fields
        else [(GroupKey.all, p.classes_source.features)]
      let total : Int :=
        if zones.isEmpty = false ∧ classes.isEmpty = false then
          (zones.length : Int) * (classes.length : Int)
        else 1
      let res := runZoneGroups eng zone_type class_type p.zone_fields p.class_fields
        p.sum_fields classes total 0 Option.none zones
      { events := Event.sinkCreated output_fields :: res.1,
        error := match res.2 with
          | .error e => some e
          | .ok _ => Option.none }

/-! ### Spec-side definitions and helper views -/

/-- Topological dimension of a geometry type under the ordering
Point < Line < Polygon used by the specification. -/
def dimension : GeometryType → Nat
  | .PointGeometry => 0
  | .LineGeometry => 1
  | .PolygonGeometry => 2
  | _ => 0

/-- True exactly on `Except.error`. -/
def isErr {ε α : Type} : Except ε α → Bool
  | .error _ => true
  | .ok _ => false

/-- The numerator `calculatePercentage` selects (lines 292-297),
factored out for statements. -/
def percentageNumerator (m : Measures) (zone_type : GeometryType) : ℚ :=
  if zone_type = .PolygonGeometry then m.AREA
  else if zone_type = .LineGeometry then m.LENGTH
  else (m.PNT_COUNT : ℚ)

/-- The denominator `calculatePercentage` selects (lines 284-287),
factored out for statements. -/
def percentageDenominator (m : Measures) (total_zone_measure : ℚ)
    (zone_type class_type : GeometryType) : ℚ :=
  if zone_type = class_type then total_zone_measure
  else if class_type = .PolygonGeometry then m.AREA
  else m.LENGTH

/-- `calculatePercentage` in terms of the factored numerator and
denominator. -/
lemma calculatePercentage_eq (m : Measures) (tzm : ℚ) (zt ct : GeometryType) :
    calculatePercentage m tzm zt ct =
      if percentageDenominator m tzm zt ct = 0 then 0
      else percentageNumerator m zt / percentageDenominator m tzm zt ct * 100 := by
  simp only [calculatePercentage, percentageNumerator, percentageDenominator]

/-- The percentage rule exactly as the specification words it: the
denominator is the zone total measure when the zone and class geometry
types agree, otherwise the accumulated AREA for polygon classes and the
accumulated LENGTH for the rest; the numerator is the accumulator slot
selected by the zone geometry type (AREA for polygons, LENGTH for
lines, PNT_COUNT for points); a zero denominator yields 0.0, otherwise
(numerator / denominator) * 100.  This definition follows the claim
text, to be compared with `calculatePercentage`, which follows the
code. -/
def percentageSpec (m : Measures) (total_zone_measure : ℚ)
    (zone_type class_type : GeometryType) : ℚ :=
  let denominator :=
    if zone_type = class_type then total_zone_measure
    else if class_type = .PolygonGeometry then m.AREA
    else m.LENGTH
  let numerator :=
    match zone_type with
    | .PolygonGeometry => m.AREA
    | .LineGeometry => m.LENGTH
    | .PointGeometry => (m.PNT_COUNT : ℚ)
    | _ => 0
  if denominator = 0 then 0 else numerator / denominator * 100

/-- Percentages carried by the emitted records of an event list (the
last attribute of every `addFeature`). -/
def extractPercentages (evs : List Event) : List ℚ :=
  evs.filterMap (fun e =>
    match e with
    | .addFeature attrs =>
        match attrs.getLast? with
        | some (PyValue.num q) => some q
        | _ => Option.none
    | _ => Option.none)

/-- Progress values reported by a run, in order. -/
def progressValues (evs : List Event) : List Int :=
  evs.filterMap (fun e =>
    match e with
    | .setProgress p => some p
    | _ => Option.none)

/-- Feedback error messages reported by a run, in order. -/
def reportedErrors (evs : List Event) : List String :=
  evs.filterMap (fun e =>
    match e with
    | .reportError msg => some msg
    | _ => Option.none)

/-- Schema of every sink created by a run (the script creates at most
one). -/
def sinkSchemas (evs : List Event) : List (List String) :=
  evs.filterMap (fun e =>
    match e with
    | .sinkCreated schema => some schema
    | _ => Option.none)

/-! ### Concrete inputs used to instantiate the theorems -/

/-- A valid, nonempty polygon geometry of the given area. -/
def polyG (a : ℚ) : Geometry :=
  { area := a, length := 0, isGeosValid := true, isEmpty := false, wkbType := .PolygonGeometry }

/-- A valid, nonempty line geometry of the given length. -/
def lineG (l : ℚ) : Geometry :=
  { area := 0, length := l, isGeosValid := true, isEmpty := false, wkbType := .LineGeometry }

/-- A geometry engine in which every pair of geometries intersects and
the intersection is the second (class) geometry: the behaviour of a
class feature lying entirely inside the zone. -/
def coverEng : GeomEngine :=
  { intersects := fun _ _ => true, intersection := fun _ c => c }

/-- A geometry engine in which no pair of geometries intersects. -/
def disjointEng : GeomEngine :=
  { intersects := fun _ _ => false, intersection := fun _ c => c }

namespace Ex2

/-- One polygon zone of area 100, no grouping fields. -/
def zonesSource : Source :=
  { features := [{ id := 1, geom := polyG 100, attrs := [] }],
    geomType := .PolygonGeometry, fields := [] }

/-- Two duplicate valid class polygons of area 100 each, both lying
entirely inside the zone (a well-formed overlap). -/
def classesSource : Source :=
  { features := [{ id := 10, geom := polyG 100, attrs := [] },
                 { id := 11, geom := polyG 100, attrs := [] }],
    geomType := .PolygonGeometry, fields := [] }

/-- Run parameters for the overlapping-classes run. -/
def params : RunParams :=
  { zones_source := zonesSource, zone_fields := [],
    classes_source := classesSource, class_fields := [], sum_fields := [] }

end Ex2

namespace Ex3

/-- A class feature whose sum field POP holds the truthy, non-numeric
string abc: `float` on it raises `ValueError` inside `updateMeasures`. -/
def classFeature : Feature :=
  { id := 7, geom := polyG 10, attrs := [("POP", PyValue.str "abc" Option.none)] }

/-- One class feature with the bad POP value. -/
def classesSource : Source :=
  { features := [classFeature], geomType := .PolygonGeometry, fields := ["POP"] }

/-- One polygon zone of area 100 intersected by the bad class
feature, with POP selected as a sum field. -/
def params : RunParams :=
  { zones_source := Ex2.zonesSource, zone_fields := [],
    classes_source := classesSource, class_fields := [], sum_fields := ["POP"] }

end Ex3

namespace Ex4

/-- A class feature whose first sum field POP holds the truthy
non-numeric string abc and whose second sum field AUX holds the numeric
value 5. -/
def classFeature : Feature :=
  { id := 8, geom := polyG 10,
    attrs := [("POP", PyValue.str "abc" Option.none), ("AUX", PyValue.num 5)] }

end Ex4

namespace Ex6

/-- A point zone source (no features needed: validation reads only the
geometry type). -/
def zonesSource : Source :=
  { features := [], geomType := .PointGeometry, fields := [] }

/-- A polygon class source. -/
def classesSource : Source :=
  { features := [], geomType := .PolygonGeometry, fields := [] }

/-- Point zones against polygon classes: structurally unsupported. -/
def params : RunParams :=
  { zones_source := zonesSource, zone_fields := [],
    classes_source := classesSource, class_fields := [], sum_fields := [] }

end Ex6

namespace Ex7

/-- A class polygon of area 40 lying inside the zone. -/
def classFeature : Feature := { id := 20, geom := polyG 40, attrs := [] }

/-- A zone feature of area 100. -/
def zoneFeature : Feature := { id := 2, geom := polyG 100, attrs := [] }

end Ex7

namespace Ex8

/-- Two zone polygons sharing one group (no grouping fields). -/
def zonesSource : Source :=
  { features := [{ id := 1, geom := polyG 100, attrs := [] },
                 { id := 2, geom := polyG 50, attrs := [] }],
    geomType := .PolygonGeometry, fields := [] }

/-- One class polygon. -/
def classesSource : Source :=
  { features := [{ id := 10, geom := polyG 10, attrs := [] }],
    geomType := .PolygonGeometry, fields := [] }

/-- Two zone features in one zone group, one class group: the script
computes `total = len(zones) * len(classes) = 1` from the group counts
but increments `current` once per zone feature. -/
def params : RunParams :=
  { zones_source := zonesSource, zone_fields := [],
    classes_source := classesSource, class_fields := [], sum_fields := [] }

end Ex8

namespace Ex9

/-- A class line feature of length 8. -/
def classFeature : Feature := { id := 30, geom := lineG 8, attrs := [] }

end Ex9

namespace Ex10

/-- A zone feature with the selected zone attribute ZN = 1. -/
def zoneFeature : Feature :=
  { id := 3, geom := polyG 100, attrs := [("ZN", PyValue.num 1)] }

/-- A class polygon of area 25 carrying the selected class attribute
CL = x. -/
def classFeature : Feature :=
  { id := 40, geom := polyG 25, attrs := [("CL", PyValue.str "x" Option.none)] }

end Ex10

/-! ### Accumulator slot lemmas -/

/-- A successful `updateSumField` touches only the SUM_FIELDS entry. -/
lemma updateSumField_slots (m : Measures) (measure : ℚ) (cf : Feature)
    (field : String) (m2 : Measures)
    (h : updateSumField m measure cf field = .ok m2) :
    m2.AREA = m.AREA ∧ m2.LENGTH = m.LENGTH ∧ m2.PNT_COUNT = m.PNT_COUNT := by
  unfold updateSumField at h
  split at h
  · injection h with h2
    subst h2
    exact ⟨rfl, rfl, rfl⟩
  · dsimp only at h
    split at h
    · exact Except.noConfusion h
    · injection h with h2
      subst h2
      exact ⟨rfl, rfl, rfl⟩

/-- A successful sum-field loop touches only the SUM_FIELDS entries. -/
lemma processSumFields_slots (measure : ℚ) (cf : Feature) :
    ∀ (fields : List String) (m m2 : Measures),
      processSumFields measure cf m fields = .ok m2 →
      m2.AREA = m.AREA ∧ m2.LENGTH = m.LENGTH ∧ m2.PNT_COUNT = m.PNT_COUNT := by
  intro fields
  induction fields with
  | nil =>
      intro m m2 h
      unfold processSumFields at h
      injection h with h2
      subst h2
      exact ⟨rfl, rfl, rfl⟩
  | cons field rest ih =>
      intro m m2 h
      unfold processSumFields at h
      cases hu : updateSumField m measure cf field with
      | error e => rw [hu] at h; exact Except.noConfusion h
      | ok mid =>
          rw [hu] at h
          obtain ⟨g1, g2, g3⟩ := updateSumField_slots m measure cf field mid hu
          obtain ⟨h1, h2, h3⟩ := ih mid m2 h
          exact ⟨h1.trans g1, h2.trans g2, h3.trans g3⟩

/-- A successful `updateMeasures` leaves unchanged every metric slot
other than the one selected by the class feature's own geometry
type. -/
lemma updateMeasures_slots (m : Measures) (measure : ℚ) (cf : Feature)
    (sf : List String) (m2 : Measures)
    (h : updateMeasures m measure cf sf = .ok m2) :
    (cf.geom.wkbType ≠ .PolygonGeometry → m2.AREA = m.AREA)
    ∧ (cf.geom.wkbType ≠ .LineGeometry → m2.LENGTH = m.LENGTH)
    ∧ (cf.geom.wkbType ≠ .PointGeometry → m2.PNT_COUNT = m.PNT_COUNT) := by
  unfold updateMeasures at h
  cases hb : updateMeasuresBody m measure cf sf with
  | error e => rw [hb] at h; exact Except.noConfusion h
  | ok mb =>
      rw [hb] at h
      injection h with h2
      subst h2
      unfold updateMeasuresBody at hb
      split at hb
      · injection hb with hb2
        subst hb2
        exact ⟨fun _ => rfl, fun _ => rfl, fun _ => rfl⟩
      · obtain ⟨s1, s2, s3⟩ := processSumFields_slots measure cf sf _ mb hb
        rw [s1, s2, s3]
        refine ⟨fun hne => ?_, fun hne => ?_, fun hne => ?_⟩ <;>
          cases hw : cf.geom.wkbType <;> simp_all

/-- A successful `classFeatureStep` leaves unchanged every metric slot
other than the one selected by the class feature's own geometry
type. -/
lemma classFeatureStep_slots (eng : GeomEngine) (zt ct : GeometryType)
    (sf : List String) (zg : Geometry) (m : Measures) (cf : Feature) (m2 : Measures)
    (h : classFeatureStep eng zt ct sf zg m cf = .ok m2) :
    (cf.geom.wkbType ≠ .PolygonGeometry → m2.AREA = m.AREA)
    ∧ (cf.geom.wkbType ≠ .LineGeometry → m2.LENGTH = m.LENGTH)
    ∧ (cf.geom.wkbType ≠ .PointGeometry → m2.PNT_COUNT = m.PNT_COUNT) := by
  unfold classFeatureStep at h
  dsimp only at h
  split at h
  · split at h
    · exact updateMeasures_slots m _ cf sf m2 h
    · injection h with h2
      subst h2
      exact ⟨fun _ => rfl, fun _ => rfl, fun _ => rfl⟩
  · injection h with h2
    subst h2
    exact ⟨fun _ => rfl, fun _ => rfl, fun _ => rfl⟩

/-- A successful accumulation over class features changes only the
metric slots selected by some feature's geometry type. -/
lemma accumulateClassFeatures_slots (eng : GeomEngine) (zt ct : GeometryType)
    (sf : List String) (zg : Geometry) :
    ∀ (cfs : List Feature) (m m2 : Measures),
      accumulateClassFeatures eng zt ct sf zg m cfs = .ok m2 →
      ((∀ f ∈ cfs, f.geom.wkbType ≠ .PolygonGeometry) → m2.AREA = m.AREA)
      ∧ ((∀ f ∈ cfs, f.geom.wkbType ≠ .LineGeometry) → m2.LENGTH = m.LENGTH)
      ∧ ((∀ f ∈ cfs, f.geom.wkbType ≠ .PointGeometry) → m2.PNT_COUNT = m.PNT_COUNT) := by
  intro cfs
  induction cfs with
  | nil =>
      intro m m2 h
      unfold accumulateClassFeatures at h
      injection h with h2
      subst h2
      exact ⟨fun _ => rfl, fun _ => rfl, fun _ => rfl⟩
  | cons cf rest ih =>
      intro m m2 h
      unfold accumulateClassFeatures at h
      cases hs : classFeatureStep eng zt ct sf zg m cf with
      | error e => rw [hs] at h; exact Except.noConfusion h
      | ok mid =>
          rw [hs] at h
          obtain ⟨g1, g2, g3⟩ := classFeatureStep_slots eng zt ct sf zg m cf mid hs
          obtain ⟨h1, h2, h3⟩ := ih mid m2 h
          refine ⟨fun hall => ?_, fun hall => ?_, fun hall => ?_⟩
          · exact (h1 (fun f hf => hall f (List.mem_cons_of_mem cf hf))).trans
              (g1 (hall cf (List.mem_cons_self cf rest)))
          · exact (h2 (fun f hf => hall f (List.mem_cons_of_mem cf hf))).trans
              (g2 (hall cf (List.mem_cons_self cf rest)))
          · exact (h3 (fun f hf => hall f (List.mem_cons_of_mem cf hf))).trans
              (g3 (hall cf (List.mem_cons_self cf rest)))

/-! ### Claims -/

/-- Claim C1: for every accumulator state, zone total measure, and pair
of geometry types (the zone type being one of Point, Line, Polygon),
`calculatePercentage` uses the zone total measure as denominator when
the two types are equal and otherwise the accumulated AREA for polygon
classes and the accumulated LENGTH for the rest; the numerator is the
accumulator slot selected by the zone type; it returns exactly 0.0 on a
zero denominator and (numerator / denominator) * 100 otherwise — that
is, it coincides with `percentageSpec`, the transcription of the
claim. -/
theorem C1_calculatePercentage_follows_spec (m : Measures) (tzm : ℚ)
    (zt ct : GeometryType)
    (hz : zt = .PointGeometry ∨ zt = .LineGeometry ∨ zt = .PolygonGeometry) :
    calculatePercentage m tzm zt ct = percentageSpec m tzm zt ct := by
  rcases hz with h | h | h <;> subst h <;> cases ct <;> rfl

/-- Claim C1, witness: the theorem applied at a line zone against a
polygon class with accumulator (AREA 2, LENGTH 3, PNT_COUNT 4). -/
theorem C1_witness :
    calculatePercentage (Measures.mk 2 3 4 []) 5 .LineGeometry .PolygonGeometry
      = percentageSpec (Measures.mk 2 3 4 []) 5 .LineGeometry .PolygonGeometry :=
  C1_calculatePercentage_follows_spec (Measures.mk 2 3 4 []) 5 .LineGeometry
    .PolygonGeometry (Or.inr (Or.inl rfl))

/-- Claim C2, counterexample: a run on well-formed geometric inputs
(one valid polygon zone of area 100; two valid, duplicate class
polygons of area 100 each, both lying entirely inside the zone; every
intersection measure individually at most the zone area) whose single
emitted record carries PERCENTAGE = 200, outside [0, 100]: overlapping
class features make the accumulated AREA (200) exceed the zone total
measure (100). -/
theorem C2_counterexample_percentage_200 :
    extractPercentages (processAlgorithm Ex2.params coverEng).events = [(200 : ℚ)]
    ∧ ¬ ((200 : ℚ) ≤ 100) := by
  constructor
  · norm_num +decide [processAlgorithm, validateGeometries, groupFeatures, addToGroup,
      runZoneGroups, runZoneFeatures, runClassGroups, processPair, accumulateClassFeatures, classFeatureStep,
      updateMeasures, updateMeasuresBody, processSumFields, updateSumField, calculateMeasure,
      calculateTotalMeasure, calculatePercentage, initMeasures, buildOutputFields,
      buildZoneAttrs, buildClassAttrs, metricsList, lookupAttr, hasField, pyFloat, pyInt,
      PyValue.truthy, extractPercentages, GeometryType.code, Ex2.params, Ex2.zonesSource,
      Ex2.classesSource, coverEng, polyG]
  · norm_num

/-- Claim C2, amended: the percentage is exactly 0.0 whenever the
chosen denominator is 0, and it lies in [0, 100] whenever the selected
numerator and denominator are nonnegative (true of every run, since
measures are sums of areas, lengths and counts) and, additionally, the
numerator does not exceed the denominator or is zero — which holds when
the class features contributing to a pair do not overlap, but which
overlapping class features can violate, pushing the percentage above
100. -/
theorem C2_amended_percentage_bounds (m : Measures) (tzm : ℚ)
    (zt ct : GeometryType)
    (hnum : 0 ≤ percentageNumerator m zt)
    (hden : 0 ≤ percentageDenominator m tzm zt ct)
    (hbound : percentageNumerator m zt ≤ percentageDenominator m tzm zt ct ∨
      percentageNumerator m zt = 0) :
    (0 ≤ calculatePercentage m tzm zt ct ∧ calculatePercentage m tzm zt ct ≤ 100)
    ∧ (percentageDenominator m tzm zt ct = 0 → calculatePercentage m tzm zt ct = 0) := by
  rw [calculatePercentage_eq]
  by_cases hd : percentageDenominator m tzm zt ct = 0
  · simp [hd]
  · have hdpos : 0 < percentageDenominator m tzm zt ct := lt_of_le_of_ne hden (Ne.symm hd)
    rw [if_neg hd]
    refine ⟨⟨?_, ?_⟩, fun h => absurd h hd⟩
    · positivity
    · rcases hbound with hb | hb
      · calc percentageNumerator m zt / percentageDenominator m tzm zt ct * 100
            ≤ 1 * 100 := by
              have : percentageNumerator m zt / percentageDenominator m tzm zt ct ≤ 1 :=
                (div_le_one hdpos).mpr hb
              nlinarith
          _ = 100 := by norm_num
      · rw [hb]
        norm_num

/-- Claim C2, witness for the amended theorem: accumulator AREA 40
against a zone total measure of 100, polygon zone and polygon class. -/
theorem C2_amended_witness :
    (0 ≤ calculatePercentage (Measures.mk 40 0 0 []) 100 .PolygonGeometry .PolygonGeometry
      ∧ calculatePercentage (Measures.mk 40 0 0 []) 100 .PolygonGeometry .PolygonGeometry ≤ 100)
    ∧ (percentageDenominator (Measures.mk 40 0 0 []) 100 .PolygonGeometry .PolygonGeometry = 0 →
        calculatePercentage (Measures.mk 40 0 0 []) 100 .PolygonGeometry .PolygonGeometry = 0) :=
  C2_amended_percentage_bounds (Measures.mk 40 0 0 []) 100 .PolygonGeometry .PolygonGeometry
    (by norm_num [percentageNumerator])
    (by norm_num [percentageDenominator])
    (Or.inl (by norm_num [percentageNumerator, percentageDenominator]))

/-- Claim C3: the claim says an exception raised while accumulating a
class feature is caught, reported through the feedback channel with the
feature id, and the run continues.  The code is a slip: the `except`
handler executes `self.feedback.reportError(...)`, but `self.feedback`
is never assigned anywhere in the class, so the handler itself raises
`AttributeError` and the run aborts.  At the concrete failing input
(class feature id 7 whose sum field POP holds the non-numeric string
abc), the run ends with that `AttributeError` and reports nothing on
the feedback channel. -/
theorem C3_handler_aborts_run :
    (processAlgorithm Ex3.params coverEng).error
      = some (RunError.pyError
          (PyError.attributeError "SummarizeIntersection object has no attribute feedback"))
    ∧ reportedErrors (processAlgorithm Ex3.params coverEng).events = [] := by
  constructor <;>
    norm_num +decide [processAlgorithm, validateGeometries, groupFeatures, addToGroup,
      runZoneGroups, runZoneFeatures, runClassGroups, processPair, accumulateClassFeatures, classFeatureStep,
      updateMeasures, updateMeasuresBody, processSumFields, updateSumField, calculateMeasure,
      calculateTotalMeasure, calculatePercentage, initMeasures, buildOutputFields,
      buildZoneAttrs, buildClassAttrs, metricsList, lookupAttr, hasField, pyFloat, pyInt,
      PyValue.truthy, reportedErrors, GeometryType.code, Ex3.params, Ex3.classesSource,
      Ex3.classFeature, Ex2.zonesSource, coverEng, polyG]

/-- Claim C4: the claim says a sum-field value that cannot be coerced
to a number contributes 0.0 for that field only, without aborting the
remaining sum fields or features.  In the code, `float` on a truthy
non-numeric value raises `ValueError`; the handler then raises
`AttributeError` (unset `self.feedback`), so `updateMeasures` aborts —
the later sum field AUX = 5 is never accumulated and no measures are
returned at all. -/
theorem C4_coercion_failure_aborts :
    updateMeasures (initMeasures ["POP", "AUX"]) 4 Ex4.classFeature ["POP", "AUX"]
      = Except.error
          (PyError.attributeError "SummarizeIntersection object has no attribute feedback") := by
  rfl

/-- Claim C5: over the geometry types Point, Line and Polygon,
`validateGeometries` fails exactly when the class dimension exceeds the
zone dimension under Point < Line < Polygon, and never fails on equal
types. -/
theorem C5_validate_iff_dimension (zt ct : GeometryType)
    (hz : zt = .PointGeometry ∨ zt = .LineGeometry ∨ zt = .PolygonGeometry)
    (hc : ct = .PointGeometry ∨ ct = .LineGeometry ∨ ct = .PolygonGeometry) :
    (isErr (validateGeometries zt ct) = true ↔ dimension zt < dimension ct)
    ∧ isErr (validateGeometries zt zt) = false := by
  rcases hz with h | h | h <;> rcases hc with h2 | h2 | h2 <;> subst h <;> subst h2 <;>
    exact ⟨by decide, by decide⟩

/-- Claim C5, witness: the theorem applied at line zones and polygon
classes. -/
theorem C5_witness :
    (isErr (validateGeometries .LineGeometry .PolygonGeometry) = true ↔
      dimension .LineGeometry < dimension .PolygonGeometry)
    ∧ isErr (validateGeometries .LineGeometry .LineGeometry) = false :=
  C5_validate_iff_dimension .LineGeometry .PolygonGeometry
    (Or.inr (Or.inl rfl)) (Or.inr (Or.inr rfl))

/-- Claim C6: whenever the zone/class geometry-type combination fails
pre-flight validation, `processAlgorithm` aborts with that
`QgsProcessingException` and produces no event at all — no sink
creation, no grouping or intersection work, no record, whatever the
features and whatever the geometry engine. -/
theorem C6_incompatible_aborts_before_work (p : RunParams) (eng : GeomEngine)
    (msg : String)
    (h : validateGeometries p.zones_source.geomType p.classes_source.geomType
      = .error msg) :
    processAlgorithm p eng
      = { events := [], error := some (.processingException msg) } := by
  simp only [processAlgorithm]
  rw [h]

/-- Claim C6, witness: the theorem applied to point zones against
polygon classes. -/
theorem C6_witness :
    processAlgorithm Ex6.params coverEng
      = { events := [],
          error := some (.processingException
            "Class features cannot be polygons or lines when zone features are points") } :=
  C6_incompatible_aborts_before_work Ex6.params coverEng
    "Class features cannot be polygons or lines when zone features are points" rfl

/-- Claim C8: the claim says the reported progress equals the share of
(zone feature x class group) pairs processed, as a percent.  The code
divides the per-zone-feature counter by `len(zones) * len(classes)`,
which counts zone groups, not zone features.  On the concrete input
(two zone features in one zone group, one class group, nothing
intersecting) the pair-proportional values would be 50 then 100, but
the run reports 100 then 200 — the counter unit (features) does not
match the total unit (groups), and the report even exceeds 100. -/
theorem C8_progress_not_pair_proportional :
    progressValues (processAlgorithm Ex8.params disjointEng).events = [100, 200] := by
  norm_num +decide [processAlgorithm, validateGeometries, groupFeatures, addToGroup,
    runZoneGroups, runZoneFeatures, runClassGroups, processPair, accumulateClassFeatures, classFeatureStep,
    updateMeasures, updateMeasuresBody, processSumFields, updateSumField, calculateMeasure,
    calculateTotalMeasure, calculatePercentage, initMeasures, buildOutputFields,
    buildZoneAttrs, buildClassAttrs, metricsList, lookupAttr, hasField, pyFloat, pyInt,
    PyValue.truthy, progressValues, GeometryType.code, Ex8.params, Ex8.zonesSource,
    Ex8.classesSource, disjointEng, polyG]

/-- Claim C9: in a cross-type run (zone geometry type differs from the
class geometry type, the zone type being one of Point, Line, Polygon,
and the class features carrying the class type), the accumulator slot
selected by the zone type is never touched by the accumulation —
`updateMeasures` adds only to the slot selected by each class feature's
own type — so the percentage computed for every (zone feature, class
group) pair is 0, whatever the chosen denominator turns out to be. -/
theorem C9_cross_type_percentage_zero (eng : GeomEngine) (zt ct : GeometryType)
    (sum_fields : List String) (zone_geom : Geometry) (cfs : List Feature)
    (m : Measures) (tzm : ℚ)
    (hzt : zt = .PointGeometry ∨ zt = .LineGeometry ∨ zt = .PolygonGeometry)
    (hne : ct ≠ zt)
    (hhom : ∀ f ∈ cfs, f.geom.wkbType = ct)
    (hacc : accumulateClassFeatures eng zt ct sum_fields zone_geom
      (initMeasures sum_fields) cfs = .ok m) :
    calculatePercentage m tzm zt ct = 0 := by
  obtain ⟨hA, hL, hP⟩ :=
    accumulateClassFeatures_slots eng zt ct sum_fields zone_geom cfs _ m hacc
  have hnum : percentageNumerator m zt = 0 := by
    rcases hzt with h | h | h <;> subst h
    · have hz : m.PNT_COUNT = (initMeasures sum_fields).PNT_COUNT :=
        hP (fun f hf => by rw [hhom f hf]; exact hne)
      simp [percentageNumerator, hz, initMeasures]
    · have hz : m.LENGTH = (initMeasures sum_fields).LENGTH :=
        hL (fun f hf => by rw [hhom f hf]; exact hne)
      simp [percentageNumerator, hz, initMeasures]
    · have hz : m.AREA = (initMeasures sum_fields).AREA :=
        hA (fun f hf => by rw [hhom f hf]; exact hne)
      simp [percentageNumerator, hz, initMeasures]
  rw [calculatePercentage_eq, hnum]
  by_cases hd : percentageDenominator m tzm zt ct = 0 <;> simp [hd]

/-- Claim C9, witness: a polygon zone against one line class feature of
length 8 accumulates (AREA 0, LENGTH 8, PNT_COUNT 0); its percentage is
0. -/
theorem C9_witness :
    calculatePercentage (Measures.mk 0 8 0 []) 100 .PolygonGeometry .LineGeometry = 0 :=
  C9_cross_type_percentage_zero coverEng .PolygonGeometry .LineGeometry []
    (polyG 100) [Ex9.classFeature] (Measures.mk 0 8 0 []) 100
    (Or.inr (Or.inr rfl))
    (by decide)
    (by simp [Ex9.classFeature, lineG])
    (by simp +decide [accumulateClassFeatures, classFeatureStep, updateMeasures,
      updateMeasuresBody, processSumFields, initMeasures, calculateMeasure,
      coverEng, Ex9.classFeature, lineG, polyG])

/-- Claim C7: for a (zone feature, class group) pair that completes
without an exception, an output record is emitted exactly when at least
one of the accumulated AREA, LENGTH, PNT_COUNT or the computed
PERCENTAGE is nonzero (the skip test of lines 163-165). -/
theorem C7_emit_iff_nonzero (eng : GeomEngine) (zt ct : GeometryType)
    (zone_fields class_fields sum_fields : List String) (zone_geom : Geometry)
    (tzm : ℚ) (zf : Feature) (lastCF : Option Feature) (cfs : List Feature)
    (m : Measures) (evs : List Event) (lcf : Option Feature)
    (hacc : accumulateClassFeatures eng zt ct sum_fields zone_geom
      (initMeasures sum_fields) cfs = .ok m)
    (hp : processPair eng zt ct zone_fields class_fields sum_fields zone_geom tzm zf
      lastCF cfs = .ok (evs, lcf)) :
    (∃ attrs, Event.addFeature attrs ∈ evs) ↔
      (m.AREA ≠ 0 ∨ m.LENGTH ≠ 0 ∨ m.PNT_COUNT ≠ 0 ∨
        calculatePercentage m tzm zt ct ≠ 0) := by
  unfold processPair at hp
  rw [hacc] at hp
  dsimp only at hp
  split at hp
  · rename_i hcond
    split at hp
    · exact Except.noConfusion hp
    · injection hp with hp2
      rw [Prod.mk.injEq] at hp2
      obtain ⟨h1, h2⟩ := hp2
      subst h1
      exact iff_of_true ⟨_, List.mem_singleton.mpr rfl⟩ hcond
  · rename_i hcond
    injection hp with hp2
    rw [Prod.mk.injEq] at hp2
    obtain ⟨h1, h2⟩ := hp2
    subst h1
    refine iff_of_false ?_ hcond
    rintro ⟨a, ha⟩
    simp at ha

/-- Claim C7, witness: one class polygon of area 40 inside a zone of
area 100 yields the accumulator (AREA 40, 0, 0) and an emitted record;
the emission test is equivalent to one of the four values being
nonzero. -/
theorem C7_witness :
    (∃ attrs, Event.addFeature attrs ∈
        [Event.addFeature [PyValue.num 40, PyValue.num 40]]) ↔
      ((Measures.mk 40 0 0 []).AREA ≠ 0 ∨ (Measures.mk 40 0 0 []).LENGTH ≠ 0 ∨
        (Measures.mk 40 0 0 []).PNT_COUNT ≠ 0 ∨
        calculatePercentage (Measures.mk 40 0 0 []) 100 .PolygonGeometry
          .PolygonGeometry ≠ 0) :=
  C7_emit_iff_nonzero coverEng .PolygonGeometry .PolygonGeometry [] [] []
    (polyG 100) 100 Ex7.zoneFeature Option.none [Ex7.classFeature]
    (Measures.mk 40 0 0 []) [Event.addFeature [PyValue.num 40, PyValue.num 40]]
    (some Ex7.classFeature)
    (by simp +decide [accumulateClassFeatures, classFeatureStep, updateMeasures,
      updateMeasuresBody, processSumFields, initMeasures, calculateMeasure,
      coverEng, Ex7.classFeature, polyG])
    (by simp +decide [processPair, accumulateClassFeatures, classFeatureStep,
      updateMeasures, updateMeasuresBody, processSumFields, initMeasures,
      calculateMeasure, calculatePercentage, buildClassAttrs, buildZoneAttrs,
      metricsList, coverEng, Ex7.classFeature, Ex7.zoneFeature, polyG])

/-- A pair produces either no event or exactly one `addFeature`. -/
lemma processPair_events_shape (eng : GeomEngine) (zt ct : GeometryType)
    (zone_fields class_fields sum_fields : List String) (zone_geom : Geometry)
    (tzm : ℚ) (zf : Feature) (lastCF : Option Feature) (cfs : List Feature)
    (evs : List Event) (lcf : Option Feature)
    (hp : processPair eng zt ct zone_fields class_fields sum_fields zone_geom tzm zf
      lastCF cfs = .ok (evs, lcf)) :
    evs = [] ∨ ∃ attrs, evs = [Event.addFeature attrs] := by
  unfold processPair at hp
  cases hacc : accumulateClassFeatures eng zt ct sum_fields zone_geom
      (initMeasures sum_fields) cfs with
  | error e => rw [hacc] at hp; exact Except.noConfusion hp
  | ok m =>
      rw [hacc] at hp
      dsimp only at hp
      split at hp
      · split at hp
        · exact Except.noConfusion hp
        · injection hp with hp2
          rw [Prod.mk.injEq] at hp2
          exact Or.inr ⟨_, hp2.1.symm⟩
      · injection hp with hp2
        rw [Prod.mk.injEq] at hp2
        exact Or.inl hp2.1.symm

/-- `sinkSchemas` distributes over list append. -/
lemma sinkSchemas_append (l l2 : List Event) :
    sinkSchemas (l ++ l2) = sinkSchemas l ++ sinkSchemas l2 :=
  List.filterMap_append l l2 _

/-- A leading sink-creation event contributes its schema. -/
lemma sinkSchemas_cons_sink (s : List String) (l : List Event) :
    sinkSchemas (Event.sinkCreated s :: l) = s :: sinkSchemas l := rfl

/-- A progress report carries no schema. -/
lemma sinkSchemas_progress (n : Int) : sinkSchemas [Event.setProgress n] = [] := rfl

/-- The class-group loop never creates a sink. -/
lemma runClassGroups_no_sink (eng : GeomEngine) (zt ct : GeometryType)
    (zone_fields class_fields sum_fields : List String) (zone_geom : Geometry)
    (tzm : ℚ) (zf : Feature) :
    ∀ (groups : List (GroupKey × List Feature)) (lastCF : Option Feature),
      sinkSchemas (runClassGroups eng zt ct zone_fields class_fields sum_fields
        zone_geom tzm zf lastCF groups).1 = [] := by
  intro groups
  induction groups with
  | nil => intro lastCF; rfl
  | cons g rest ih =>
      intro lastCF
      obtain ⟨gk, gfs⟩ := g
      unfold runClassGroups
      cases hp : processPair eng zt ct zone_fields class_fields sum_fields zone_geom
          tzm zf lastCF gfs with
      | error e => rfl
      | ok pr =>
          obtain ⟨evs, lastCF2⟩ := pr
          dsimp only
          rw [sinkSchemas_append, ih lastCF2]
          rcases processPair_events_shape eng zt ct zone_fields class_fields sum_fields
            zone_geom tzm zf lastCF gfs evs lastCF2 hp with h | ⟨a, h⟩ <;> subst h <;> rfl

/-- The zone-feature loop never creates a sink. -/
lemma runZoneFeatures_no_sink (eng : GeomEngine) (zt ct : GeometryType)
    (zone_fields class_fields sum_fields : List String)
    (classes : List (GroupKey × List Feature)) (total : Int) :
    ∀ (zfs : List Feature) (current : Int) (lastCF : Option Feature),
      sinkSchemas (runZoneFeatures eng zt ct zone_fields class_fields sum_fields
        classes total current lastCF zfs).1 = [] := by
  intro zfs
  induction zfs with
  | nil => intro current lastCF; rfl
  | cons zf rest ih =>
      intro current lastCF
      unfold runZoneFeatures
      dsimp only
      cases hg : runClassGroups eng zt ct zone_fields class_fields sum_fields zf.geom
          (calculateTotalMeasure zf.geom zt) zf lastCF classes with
      | mk evs r =>
          have hevs : sinkSchemas evs = [] := by
            have h0 := runClassGroups_no_sink eng zt ct zone_fields class_fields sum_fields
              zf.geom (calculateTotalMeasure zf.geom zt) zf classes lastCF
            rw [hg] at h0
            exact h0
          cases r with
          | error e => exact hevs
          | ok lastCF2 =>
              dsimp only
              rw [sinkSchemas_append, sinkSchemas_append, hevs, sinkSchemas_progress,
                ih (current + 1) lastCF2]
              rfl

/-- The zone-group loop never creates a sink. -/
lemma runZoneGroups_no_sink (eng : GeomEngine) (zt ct : GeometryType)
    (zone_fields class_fields sum_fields : List String)
    (classes : List (GroupKey × List Feature)) (total : Int) :
    ∀ (zgs : List (GroupKey × List Feature)) (current : Int) (lastCF : Option Feature),
      sinkSchemas (runZoneGroups eng zt ct zone_fields class_fields sum_fields
        classes total current lastCF zgs).1 = [] := by
  intro zgs
  induction zgs with
  | nil => intro current lastCF; rfl
  | cons zg rest ih =>
      intro current lastCF
      obtain ⟨gk, gfs⟩ := zg
      unfold runZoneGroups
      dsimp only
      cases hf : runZoneFeatures eng zt ct zone_fields class_fields sum_fields classes
          total current lastCF gfs with
      | mk evs r =>
          have hevs : sinkSchemas evs = [] := by
            have h0 := runZoneFeatures_no_sink eng zt ct zone_fields class_fields sum_fields
              classes total gfs current lastCF
            rw [hf] at h0
            exact h0
          cases r with
          | error e => exact hevs
          | ok st =>
              obtain ⟨current2, lastCF2⟩ := st
              dsimp only
              rw [sinkSchemas_append, hevs, ih current2 lastCF2]
              rfl

/-- A run creates no sink when validation fails and exactly one sink,
carrying `buildOutputFields`, when it passes. -/
lemma processAlgorithm_sink_schemas (p : RunParams) (eng : GeomEngine) :
    sinkSchemas (processAlgorithm p eng).events =
      match validateGeometries p.zones_source.geomType p.classes_source.geomType with
      | .error _ => []
      | .ok _ => [buildOutputFields p.zones_source.fields p.zone_fields
          p.classes_source.fields p.class_fields p.zones_source.geomType
          p.classes_source.geomType] := by
  unfold processAlgorithm
  dsimp only
  cases hv : validateGeometries p.zones_source.geomType p.classes_source.geomType with
  | error msg => rfl
  | ok u =>
      dsimp only
      rw [sinkSchemas_cons_sink, runZoneGroups_no_sink]

/-- Claim C10: the attributes of every emitted output record are
exactly the selected zone field values, then the selected class field
values (from the last bound class feature), then the applicable metric
slots, then PERCENTAGE; the accumulated SUM_FIELDS totals are never
written — the percentage and the metric columns are invariant under any
change of the accumulator's SUM_FIELDS component — and the output
schema of a run is unchanged by any choice of sum fields. -/
theorem C10_output_record_frame (eng : GeomEngine) (zt ct : GeometryType)
    (zone_fields class_fields sum_fields : List String) (zone_geom : Geometry)
    (tzm : ℚ) (zf : Feature) (lastCF : Option Feature) (cfs : List Feature)
    (m : Measures) (evs : List Event) (lcf : Option Feature) (attrs : List PyValue)
    (sfAcc : List (String × ℚ)) (p : RunParams) (sf2 : List String)
    (hacc : accumulateClassFeatures eng zt ct sum_fields zone_geom
      (initMeasures sum_fields) cfs = .ok m)
    (hp : processPair eng zt ct zone_fields class_fields sum_fields zone_geom tzm zf
      lastCF cfs = .ok (evs, lcf))
    (hmem : Event.addFeature attrs ∈ evs) :
    (attrs = buildZoneAttrs zone_fields zf
        ++ (buildClassAttrs class_fields lcf).toOption.getD []
        ++ metricsList zt ct m (calculatePercentage m tzm zt ct))
    ∧ calculatePercentage { m with SUM_FIELDS := sfAcc } tzm zt ct
        = calculatePercentage m tzm zt ct
    ∧ metricsList zt ct { m with SUM_FIELDS := sfAcc }
        (calculatePercentage m tzm zt ct)
        = metricsList zt ct m (calculatePercentage m tzm zt ct)
    ∧ sinkSchemas (processAlgorithm { p with sum_fields := sf2 } eng).events
        = sinkSchemas (processAlgorithm p eng).events := by
  refine ⟨?_, rfl, rfl, ?_⟩
  · unfold processPair at hp
    rw [hacc] at hp
    dsimp only at hp
    split at hp
    · split at hp
      · exact Except.noConfusion hp
      · rename_i ca hb
        injection hp with hp2
        rw [Prod.mk.injEq] at hp2
        obtain ⟨h1, h2⟩ := hp2
        subst h1
        have h3 := List.mem_singleton.mp hmem
        injection h3 with h4
        rw [h4, ← h2, hb]
        rfl
    · injection hp with hp2
      rw [Prod.mk.injEq] at hp2
      obtain ⟨h1, h2⟩ := hp2
      subst h1
      simp at hmem
  · rw [processAlgorithm_sink_schemas, processAlgorithm_sink_schemas]

/-- Claim C10, witness: a zone feature with ZN = 1 and a class polygon
of area 25 with CL = x inside a zone of area 100 emit the record
[1, x, 25, 25]; the frame parts are instantiated with the accumulator's
SUM_FIELDS replaced by POP = 3 and a run whose sum fields become
[POP]. -/
theorem C10_witness :
    ([PyValue.num 1, PyValue.str "x" Option.none, PyValue.num 25, PyValue.num 25]
        = buildZoneAttrs ["ZN"] Ex10.zoneFeature
          ++ (buildClassAttrs ["CL"] (some Ex10.classFeature)).toOption.getD []
          ++ metricsList .PolygonGeometry .PolygonGeometry (Measures.mk 25 0 0 [])
              (calculatePercentage (Measures.mk 25 0 0 []) 100 .PolygonGeometry
                .PolygonGeometry))
    ∧ calculatePercentage (Measures.mk 25 0 0 [("POP", 3)]) 100 .PolygonGeometry
        .PolygonGeometry
        = calculatePercentage (Measures.mk 25 0 0 []) 100 .PolygonGeometry
            .PolygonGeometry
    ∧ metricsList .PolygonGeometry .PolygonGeometry (Measures.mk 25 0 0 [("POP", 3)])
        (calculatePercentage (Measures.mk 25 0 0 []) 100 .PolygonGeometry
          .PolygonGeometry)
        = metricsList .PolygonGeometry .PolygonGeometry (Measures.mk 25 0 0 [])
            (calculatePercentage (Measures.mk 25 0 0 []) 100 .PolygonGeometry
              .PolygonGeometry)
    ∧ sinkSchemas (processAlgorithm { Ex2.params with sum_fields := ["POP"] }
        coverEng).events
        = sinkSchemas (processAlgorithm Ex2.params coverEng).events :=
  C10_output_record_frame coverEng .PolygonGeometry .PolygonGeometry ["ZN"] ["CL"] []
    (polyG 100) 100 Ex10.zoneFeature Option.none [Ex10.classFeature]
    (Measures.mk 25 0 0 [])
    [Event.addFeature [PyValue.num 1, PyValue.str "x" Option.none, PyValue.num 25,
      PyValue.num 25]]
    (some Ex10.classFeature)
    [PyValue.num 1, PyValue.str "x" Option.none, PyValue.num 25, PyValue.num 25]
    [("POP", 3)] Ex2.params ["POP"]
    (by simp +decide [accumulateClassFeatures, classFeatureStep, updateMeasures,
      updateMeasuresBody, processSumFields, initMeasures, calculateMeasure,
      coverEng, Ex10.classFeature, polyG])
    (by simp +decide [processPair, accumulateClassFeatures, classFeatureStep,
      updateMeasures, updateMeasuresBody, processSumFields, initMeasures,
      calculateMeasure, calculatePercentage, buildClassAttrs, buildZoneAttrs,
      metricsList, lookupAttr, List.find?, coverEng, Ex10.classFeature,
      Ex10.zoneFeature, polyG])
    (by simp)

end SummarizeZonal
